import Mathlib

/-
Verification of the opentick C++ client driver
(src/bindings/cpp/include/opentick.h) against its specification.

The development shallowly embeds the protocol engine of opentick.h:
the tagged scalar values and result sets, the pending-request table
(store_), the polling loop of FutureImpl::Get_, ticker allocation by a
32-bit counter, the prepared-statement cache and the request envelopes
built by Prepare / ExecuteAsync, the timestamp marshalling of
ConvertArgs and the result-matrix cell decoder of Connection::ReadBody,
the heartbeat branch of the read loop, and the connect path.

Machine integers are modelled as Int with explicit wrapping where the
width matters (the int ticker counter); C++ integer division and
remainder truncate toward zero, which is Int.tdiv / Int.tmod.
-/

namespace Opentick

/-- Tagged scalar value, mirroring the variant at opentick.h lines 27 to 29:
std::variant over int64_t, uint64_t, int32_t, uint32_t, bool, float, double,
nullptr_t, string and Tm.  A Tm (std::chrono::system_clock::time_point) is
represented by its signed count of nanoseconds since the Unix epoch, the
resolution of system_clock on the reference platform (libstdc++ / Linux).
float and double payloads are carried as exact rationals; no claim performs
floating-point arithmetic on them. -/
inductive ValueScalar where
  | vint64 (n : Int)
  | vuint64 (n : Nat)
  | vint32 (n : Int)
  | vuint32 (n : Nat)
  | vbool (b : Bool)
  | vfloat (q : ℚ)
  | vdouble (q : ℚ)
  | vnull
  | vstr (s : String)
  | vtime (ns : Int)
deriving DecidableEq

/-- ResultSet = std::shared_ptr of a row matrix (opentick.h line 31):
`none` is the null shared pointer (a default-constructed ResultSet),
`some m` a pointer to the matrix m. -/
abbrev ResultSet := Option (List (List ValueScalar))

/-- Number of rows reachable through a ResultSet handle; the null handle
exposes no rows. -/
def resultRows : ResultSet → Nat
  | none => 0
  | some m => m.length

/-- Value = std::variant of ResultSet and ValueScalar (opentick.h line 32). -/
inductive Value where
  | result (rs : ResultSet)
  | scalar (s : ValueScalar)
deriving DecidableEq

/-- The pending-request table store_ (opentick.h line 74): ticker to outcome. -/
abbrev Store := Int → Option Value

/-- Connection::Notify (opentick.h lines 317 to 321): store the outcome under
the given ticker and wake all waiters. -/
def Notify (store : Store) (ticker : Int) (v : Value) : Store :=
  fun t => if t = ticker then some v else store t

/-- Result of one pass over the pending table inside FutureImpl::Get_. -/
inductive CheckResult where
  | value (v : Value)
  | serverError (m : String)
  | connError (m : String)
  | badVariant
deriving DecidableEq

/-- One body check of FutureImpl::Get_ (opentick.h lines 289 to 299): first
the future's own ticker (a string scalar there is thrown as a server error,
any other stored outcome is returned), then the reserved ticker -1, whose
string payload is thrown as a connection-wide error.  `badVariant` models the
std::get of a string from a -1 entry that is not a string scalar
(std::bad_variant_access); every -1 entry written by this code is a string. -/
def getCheck (store : Store) (ticker : Int) : Option CheckResult :=
  match store ticker with
  | some v =>
    match v with
    | .scalar (.vstr m) => some (.serverError m)
    | _ => some (.value v)
  | none =>
    match store (-1) with
    | some (.scalar (.vstr m)) => some (.connError m)
    | some _ => some .badVariant
    | none => none

/-- Outcome of a FutureImpl::Get_ call. -/
inductive GetResult where
  | value (v : Value)
  | serverError (m : String)
  | connError (m : String)
  | badVariant
  | timeout
  | waiting
deriving DecidableEq

/-- Embed a table-check result into a call outcome. -/
def CheckResult.toGetResult : CheckResult → GetResult
  | .value v => .value v
  | .serverError m => .serverError m
  | .connError m => .connError m
  | .badVariant => .badVariant

/-- The polling loop of FutureImpl::Get_ (opentick.h lines 285 to 309) over a
fixed store.  `i` counts completed iterations; `elapsedNs i` is the value of
(now - start).count() observed at the timeout check of iteration i, that is,
the elapsed time in raw system_clock ticks (nanoseconds on the reference
platform); `fuel` bounds how many loop iterations are unrolled, with
`waiting` meaning the loop had not returned within that many iterations.
Each iteration checks the table, then waits on the condition variable for
1ms, then evaluates the C++ condition
  timeout > 0 && (now - start).count() >= timeout
which compares the raw tick count against timeout (declared in seconds in
the comment on opentick.h line 34). -/
def GetLoop (store : Store) (ticker : Int) (timeout : ℚ) (elapsedNs : Nat → Int) :
    Nat → Nat → GetResult
  | _, 0 => .waiting
  | i, fuel + 1 =>
    match getCheck store ticker with
    | some c => c.toGetResult
    | none =>
      if 0 < timeout ∧ timeout ≤ ((elapsedNs i : ℚ)) then .timeout
      else GetLoop store ticker timeout elapsedNs (i + 1) fuel

/-- FutureImpl::Get_ : run the polling loop from iteration 0. -/
def FutureImpl.GetV (store : Store) (ticker : Int) (timeout : ℚ)
    (elapsedNs : Nat → Int) (fuel : Nat) : GetResult :=
  GetLoop store ticker timeout elapsedNs 0 fuel

/-- Outcome of a FutureImpl::Get call (the ResultSet-returning wrapper). -/
inductive RSResult where
  | ok (rs : ResultSet)
  | serverError (m : String)
  | connError (m : String)
  | badVariant
  | timeout
  | waiting
deriving DecidableEq

/-- FutureImpl::Get (opentick.h lines 311 to 315): run Get_, pass a ResultSet
outcome through, and turn any other returned value into a default
(null) ResultSet. -/
def FutureImpl.Get (store : Store) (ticker : Int) (timeout : ℚ)
    (elapsedNs : Nat → Int) (fuel : Nat) : RSResult :=
  match FutureImpl.GetV store ticker timeout elapsedNs fuel with
  | .value (.result rs) => .ok rs
  | .value (.scalar _) => .ok none
  | .serverError m => .serverError m
  | .connError m => .connError m
  | .badVariant => .badVariant
  | .timeout => .timeout
  | .waiting => .waiting

/-- Subset of nlohmann json values produced by this driver.  A
default-constructed json (such as the local jargs of ExecuteAsync before
anything is pushed into it) is `null`. -/
inductive Json where
  | null
  | jbool (b : Bool)
  | jint (n : Int)
  | jfloat (q : ℚ)
  | jstr (s : String)
  | arr (elems : List Json)

/-- nlohmann json::push_back: appending to null turns it into a one-element
array, appending to an array appends.  On every other type nlohmann throws a
type_error; that branch is unreachable in this driver (push_back is only
applied to a default-constructed or already-array jargs), so it is modelled
as the identity. -/
def jsonPush (j x : Json) : Json :=
  match j with
  | .null => .arr [x]
  | .arr l => .arr (l ++ [x])
  | other => other

/-- Seconds part of the marshalled timestamp pair (ConvertArgs, opentick.h
line 332): d / 1000000000 with C++ division, which truncates toward zero. -/
def tmPairSec (ns : Int) : Int := ns.tdiv 1000000000

/-- Nanosecond part of the marshalled timestamp pair (ConvertArgs, opentick.h
line 332): d % 1000000000 with C++ remainder, which takes the sign of the
dividend. -/
def tmPairNsec (ns : Int) : Int := ns.tmod 1000000000

/-- The visitor inside ConvertArgs (opentick.h lines 325 to 336): a Tm is
marshalled to the 2-element pair [d / 1000000000, d % 1000000000] of its
nanosecond count d since the epoch; every other alternative is pushed
through as the corresponding json value. -/
def scalarToJson : ValueScalar → Json
  | .vint64 n => .jint n
  | .vuint64 n => .jint n
  | .vint32 n => .jint n
  | .vuint32 n => .jint n
  | .vbool b => .jbool b
  | .vfloat q => .jfloat q
  | .vdouble q => .jfloat q
  | .vnull => .null
  | .vstr s => .jstr s
  | .vtime ns => .arr [.jint (tmPairSec ns), .jint (tmPairNsec ns)]

/-- ConvertArgs (opentick.h lines 323 to 339): push each marshalled argument
onto jargs in order. -/
def ConvertArgs (args : List ValueScalar) (jargs : Json) : Json :=
  args.foldl (fun j v => jsonPush j (scalarToJson v)) jargs

/-- nlohmann get of an int64 from a json value: numbers and booleans convert
(floats truncate toward zero), anything else throws type_error (`none`). -/
def jsonToInt64 : Json → Option Int
  | .jint n => some n
  | .jfloat q => some (q.num.tdiv (q.den : Int))
  | .jbool b => some (if b then 1 else 0)
  | _ => none

/-- The result-matrix cell decoder of Connection::ReadBody (opentick.h lines
204 to 219): strings, integers, floats and booleans map to the matching
scalar; a 2-element array [sec, nsec] is decoded as the timestamp
from_time_t(sec) + nanoseconds(nsec), that is sec * 1000000000 + nsec
nanoseconds since the epoch; anything else becomes null.  `none` models the
nlohmann exception thrown when a pair element cannot convert to int64, which
makes ReadBody drop the whole message. -/
def decodeCell : Json → Option ValueScalar
  | .jstr s => some (.vstr s)
  | .jint n => some (.vint64 n)
  | .jfloat q => some (.vdouble q)
  | .jbool b => some (.vbool b)
  | .arr [a, b] =>
    match jsonToInt64 a, jsonToInt64 b with
    | some sec, some nsec => some (.vtime (sec * 1000000000 + nsec))
    | _, _ => none
  | _ => some .vnull

/-- Two's-complement wrap of an unbounded integer into the int32 range.
ticker_counter_ (opentick.h line 69) is a std::atomic of int, whose
pre-increment wraps modulo 2 to the 32nd power. -/
def wrap32 (n : Int) : Int :=
  (n + 2147483648) % 4294967296 - 2147483648

/-- One ticker allocation: the value returned by ++ticker_counter_ when the
counter currently holds c. -/
def nextTicker (c : Int) : Int := wrap32 (c + 1)

/-- Counter value after n allocations; ticker_counter_ is initialised to 0
(opentick.h line 69). -/
def tickerAfter : Nat → Int
  | 0 => 0
  | n + 1 => nextTicker (tickerAfter n)

/-- The ticker handed out by the n-th allocation on one connection, n being
1-based: pre-increment returns the freshly incremented counter. -/
def allocatedTicker (n : Nat) : Int := tickerAfter n

/-- Request envelope assembled by the outbound operations: positional fields
0 (ticker), 1 (command), 2 (statement) and, for run / batch, 3 (args). -/
structure ReqMsg where
  ticker : Int
  cmd : String
  stmt : Json
  args : Option Json

/-- Client-visible connection state: the ticker counter, the
prepared-statement cache prepared_ (opentick.h line 73) and the ordered list
of messages handed to Send. -/
structure ConnState where
  counter : Int
  prepared : List (String × Int)
  sent : List ReqMsg

/-- std::map::emplace on the prepared cache: insert only when the key is not
present (an existing entry is never overwritten). -/
def emplace (m : List (String × Int)) (k : String) (v : Int) :
    List (String × Int) :=
  match m.lookup k with
  | some _ => m
  | none => m ++ [(k, v)]

/-- Error outcomes of a blocking client call (the exceptions Get_ can throw,
plus `noResponse` for a wait that never returns because neither the ticker
nor -1 ever receives an outcome). -/
inductive CallErr where
  | server (m : String)
  | conn (m : String)
  | badVariant
  | noResponse
deriving DecidableEq

/-- Connection::Prepare (opentick.h lines 268 to 283) against a static
response environment env, which maps each ticker to the outcome that the
read loop will eventually store for it (none when no response ever
arrives).  On a cache hit the cached id is returned with no state change at
all; on a miss a ticker is allocated, one prepare message is sent, the call
blocks until Get_ (indefinite wait) yields an outcome, the int64 id is
extracted (any other payload is a variant access error), the pair is
emplaced into the cache, and the id is returned.  Both the cache
(std::map of string to int, opentick.h line 73) and the declared return
type (int Connection::Prepare, line 268) narrow the extracted int64 to a
32-bit int, which wraps it modulo 2 to the 32nd power; a cache hit returns
the stored (already narrowed) int unchanged. -/
def Prepare (env : Store) (st : ConnState) (sql : String) :
    Except CallErr (Int × ConnState) :=
  match st.prepared.lookup sql with
  | some id => .ok (id, st)
  | none =>
    let ticker := nextTicker st.counter
    let st1 : ConnState :=
      { counter := ticker, prepared := st.prepared,
        sent := st.sent ++
          [{ ticker := ticker, cmd := "prepare", stmt := .jstr sql,
             args := none }] }
    match getCheck env ticker with
    | none => .error .noResponse
    | some (.serverError m) => .error (.server m)
    | some (.connError m) => .error (.conn m)
    | some .badVariant => .error .badVariant
    | some (.value (.scalar (.vint64 id))) =>
      .ok (wrap32 id,
        { st1 with prepared := emplace st1.prepared sql (wrap32 id) })
    | some (.value _) => .error .badVariant

/-- Connection::ExecuteAsync (opentick.h lines 341 to 354).  prepared starts
at -1 and jargs as a default (null) json; with non-empty args the arguments
are marshalled and a blocking Prepare round trip resolves the statement id;
then a fresh ticker is allocated and one run message is sent whose statement
field is the prepared id when prepared >= 0 and the raw SQL text otherwise,
and whose args field is jargs as it stands (still null when args was
empty).  The returned int is the ticker the new Future is bound to. -/
def ExecuteAsync (env : Store) (st : ConnState) (sql : String)
    (args : List ValueScalar) : Except CallErr (Int × ConnState) :=
  if args.length = 0 then
    let ticker := nextTicker st.counter
    Except.ok (ticker,
      { counter := ticker, prepared := st.prepared,
        sent := st.sent ++
          [{ ticker := ticker, cmd := "run", stmt := Json.jstr sql,
             args := some Json.null }] })
  else
    match Prepare env st sql with
    | .error e => .error e
    | .ok (pid, st1) =>
      let jargs := ConvertArgs args Json.null
      let ticker := nextTicker st1.counter
      let stmt := if 0 ≤ pid then Json.jint pid else Json.jstr sql
      Except.ok (ticker,
        { counter := ticker, prepared := st1.prepared,
          sent := st1.sent ++
            [{ ticker := ticker, cmd := "run", stmt := stmt,
               args := some jargs }] })

/-- N successive calls of Prepare with the same SQL text, collecting the
returned ids. -/
def PrepareN (env : Store) (sql : String) :
    ConnState → Nat → Except CallErr (List Int × ConnState)
  | st, 0 => .ok ([], st)
  | st, n + 1 =>
    match Prepare env st sql with
    | .error e => .error e
    | .ok (id, st1) =>
      match PrepareN env sql st1 n with
      | .error e => .error e
      | .ok (ids, st2) => .ok (id :: ids, st2)

/-- Reactor-side state: the pending table and the payloads of the frames
queued through Send, in order (a zero-length frame has payload []). -/
structure ReactorState where
  store : Store
  sentPayloads : List (List Nat)

/-- What the read loop does after handling one frame body: re-arm ReadHead
for the next length prefix, or stop (only on an I/O error). -/
inductive ReadCont where
  | head
  | stopped

/-- The error branch shared by ReadHead and ReadBody (opentick.h lines 148 to
152 and 170 to 174): post the error message under ticker -1 and stop
reading. -/
def readFailure (st : ReactorState) (msg : String) : ReactorState × ReadCont :=
  ({ st with store := Notify st.store (-1) (.scalar (.vstr msg)) }, .stopped)

/-- The body handler of Connection::ReadBody on a successfully read payload
(opentick.h lines 175 to 229).  A frame of length 1 whose payload byte is
the character H (code 72) is answered by Send of an empty string, that is
exactly one zero-length frame, and reading resumes; the pending table is not
touched.  Any other payload is parsed and dispatched: `decode` abstracts the
bson parse plus the envelope decoding of lines 181 to 222, returning none
when parsing fails (the message is dropped, logged only) and otherwise the
ticker and outcome stored via Notify. -/
def handleBody (decode : List Nat → Option (Int × Value)) (st : ReactorState)
    (len : Nat) (payload : List Nat) : ReactorState × ReadCont :=
  if len == 1 && payload.getD 0 0 == 72 then
    ({ st with sentPayloads := st.sentPayloads ++ [[]] }, .head)
  else
    match decode payload with
    | none => (st, .head)
    | some (ticker, v) => ({ st with store := Notify st.store ticker v }, .head)

/-- How the TCP connect attempt of the Connection constructor can end. -/
inductive TcpOutcome where
  | invalidAddress
  | connectRefused
  | success
deriving DecidableEq

/-- Socket state as observed by is_open: never opened, opened but not
connected, or connected. -/
inductive SockState where
  | closed
  | openedNotConnected
  | connected
deriving DecidableEq

/-- Socket state after the constructor body (opentick.h lines 106 to 120).
The whole body is wrapped in a try / catch that only logs, so no failure
propagates.  address::from_string throws on a bad address before the socket
is ever opened, leaving it closed.  For a refused connect, boost
basic_socket::connect documents that the socket is automatically opened
first and is not returned to the closed state when the connect fails, so
is_open subsequently reports true. -/
def ctorSocket : TcpOutcome → SockState
  | .invalidAddress => .closed
  | .connectRefused => .openedNotConnected
  | .success => .connected

/-- Connection::IsConnected (opentick.h line 122): socket_.is_open(). -/
def IsConnected : SockState → Bool
  | .closed => false
  | _ => true

/-- The pending table right after the first asynchronous read fails: the
ReadHead error handler posts the error message under ticker -1 (opentick.h
lines 148 to 152). -/
def errStore (msg : String) : Store :=
  Notify (fun _ => none) (-1) (.scalar (.vstr msg))

/-- What the Connect free function does for its caller: return a connection
handle (with the socket state and the pending table it ends up with), or let
an exception escape. -/
inductive ConnectResult where
  | returned (sock : SockState) (store : Store)
  | raises (m : String)

/-- The Connect free function (opentick.h lines 79 to 87): construct the
Connection (failures logged, never rethrown), arm ReadHead, and, when a
database name was supplied, run the blocking Use round trip.  When the TCP
connect failed, the armed read fails at once on the dead socket and its
handler posts readErr under ticker -1; Use then allocates a ticker, Send
drops or fails the write, and the Get_ inside Use observes the -1 entry and
throws, so the exception propagates out of Connect.  With no database name
Connect returns the handle.  On a successful connect the healthy store is
left abstract (empty). -/
def ConnectModel (o : TcpOutcome) (dbName : String) (readErr : String) :
    ConnectResult :=
  let sock := ctorSocket o
  match o with
  | .success => .returned sock (fun _ => none)
  | _ =>
    if dbName.length != 0 then .raises readErr
    else .returned sock (errStore readErr)

/-- Example pending table of a connection that received the response for
ticker 7 and then hit a fatal socket error (a string posted under -1). -/
def storeAfterError : Store :=
  fun t =>
    if t = 7 then some (.result (some [[.vint64 1]]))
    else if t = -1 then some (.scalar (.vstr "closed")) else none

/-!  Helper lemmas, shared by the claim theorems below. -/

/-- List.lookup walks an appended association list left to right. -/
theorem lookup_append (l1 l2 : List (String × Int)) (k : String)
    (h : l1.lookup k = none) : (l1 ++ l2).lookup k = l2.lookup k := by
  induction l1 with
  | nil => rfl
  | cons p l ih =>
    rw [List.cons_append]
    rw [List.lookup] at h ⊢
    cases hk : (k == p.1) with
    | true => rw [hk] at h; exact Option.noConfusion h
    | false => rw [hk] at h; exact ih h

/-- The counter reached after n allocations is just n wrapped into int32. -/
theorem tickerAfter_eq (n : Nat) : tickerAfter n = wrap32 n := by
  induction n with
  | zero => simp only [tickerAfter, wrap32]; omega
  | succ n ih =>
    simp only [tickerAfter, nextTicker, ih, wrap32]
    push_cast
    omega

/-- Once the pending table holds a string under -1, any Get_ whose own ticker
has no entry observes it within one loop iteration and throws it as a
connection error. -/
theorem getV_of_connError (store : Store) (ticker : Int) (timeout : ℚ)
    (elapsedNs : Nat → Int) (fuel : Nat) (msg : String)
    (hown : store ticker = none)
    (herr : store (-1) = some (.scalar (.vstr msg))) :
    FutureImpl.GetV store ticker timeout elapsedNs (fuel + 1) =
      .connError msg := by
  simp only [FutureImpl.GetV, GetLoop, getCheck, hown, herr,
    CheckResult.toGetResult]

/-- Prepare on a cache hit returns the cached id and leaves the state (hence
the sent list and the counter) unchanged; it never consults the response
environment. -/
theorem Prepare_cache_hit (env : Store) (st : ConnState) (sql : String)
    (id : Int) (h : st.prepared.lookup sql = some id) :
    Prepare env st sql = Except.ok (id, st) := by
  simp only [Prepare, h]

/-- Prepare on a cache miss sends one prepare message on a fresh ticker,
extracts the int64 id from the environment, and caches and returns the id
narrowed to int. -/
theorem Prepare_cache_miss (env : Store) (st : ConnState) (sql : String)
    (id : Int) (hmiss : st.prepared.lookup sql = none)
    (henv : env (nextTicker st.counter) = some (.scalar (.vint64 id))) :
    Prepare env st sql = Except.ok (wrap32 id,
      { counter := nextTicker st.counter,
        prepared := st.prepared ++ [(sql, wrap32 id)],
        sent := st.sent ++
          [{ ticker := nextTicker st.counter, cmd := "prepare",
             stmt := .jstr sql, args := none }] }) := by
  simp only [Prepare, hmiss, getCheck, henv, emplace]

/-- Any number of Prepare calls against a warm cache return the cached id
and leave the state untouched. -/
theorem PrepareN_cache_hit (env : Store) (sql : String) (st : ConnState)
    (id : Int) (n : Nat) (h : st.prepared.lookup sql = some id) :
    PrepareN env sql st n = Except.ok (List.replicate n id, st) := by
  induction n with
  | zero => rfl
  | succ n ih =>
    simp only [PrepareN, Prepare_cache_hit env st sql id h, ih,
      List.replicate_succ]

/-!  Claim theorems. -/

/-- C6: marshalling a timestamp with ConvertArgs to the pair
[epoch_seconds, nanosecond_remainder] and decoding that pair with the
result-matrix cell decoder (from_time_t(sec) + nanoseconds(nsec))
reconstructs an instant equal to the original, for every timestamp value,
in particular for nanosecond components 0, 1 and 999999999. -/
theorem C6_timestamp_roundtrip (ns : Int) :
    decodeCell (scalarToJson (.vtime ns)) = some (.vtime ns) := by
  simp only [scalarToJson, decodeCell, jsonToInt64, tmPairSec, tmPairNsec,
    Int.tdiv_add_tmod']

/-- C6 witness: the round trip evaluated at the instants whose nanosecond
components are 999999999, 1 and 0. -/
theorem C6_witness :
    decodeCell (scalarToJson (.vtime 999999999)) = some (.vtime 999999999) ∧
    decodeCell (scalarToJson (.vtime 1)) = some (.vtime 1) ∧
    decodeCell (scalarToJson (.vtime 0)) = some (.vtime 0) :=
  ⟨C6_timestamp_roundtrip 999999999, C6_timestamp_roundtrip 1,
    C6_timestamp_roundtrip 0⟩

/-- C7 counterexample: the instant one nanosecond before the Unix epoch
marshals to the pair [0, -1], whose nanosecond remainder is negative, not in
the interval [0, 1e9): C++ remainder takes the sign of the dividend. -/
theorem C7_counterexample :
    scalarToJson (.vtime (-1)) = Json.arr [Json.jint 0, Json.jint (-1)] ∧
    tmPairNsec (-1) < 0 := ⟨rfl, by decide⟩

/-- C7 (amended): for every timestamp marshalled by ConvertArgs the
nanosecond remainder lies strictly between -1e9 and 1e9; it lies in
[0, 1e9) for instants at or after the Unix epoch, and in (-1e9, 0] for
instants strictly before it. -/
theorem C7_nsec_range (ns : Int) :
    (-1000000000 < tmPairNsec ns ∧ tmPairNsec ns < 1000000000) ∧
    (0 ≤ ns → 0 ≤ tmPairNsec ns) ∧
    (ns < 0 → tmPairNsec ns ≤ 0) := by
  unfold tmPairNsec
  cases ns with
  | ofNat m =>
    have h1 : Int.tmod (Int.ofNat m) 1000000000 =
        ((m % 1000000000 : Nat) : Int) := rfl
    rw [h1]
    simp only [Int.ofNat_eq_coe]
    omega
  | negSucc m =>
    have h1 : Int.tmod (Int.negSucc m) 1000000000 =
        -((Nat.succ m % 1000000000 : Nat) : Int) := rfl
    rw [h1]
    simp only [Int.negSucc_eq]
    omega

/-- C7 witness: the bounds evaluated at the concrete instants 123 and -5. -/
theorem C7_witness :
    (-1000000000 < tmPairNsec 123 ∧ tmPairNsec 123 < 1000000000) ∧
    0 ≤ tmPairNsec 123 ∧ tmPairNsec (-5) ≤ 0 :=
  ⟨(C7_nsec_range 123).1, (C7_nsec_range 123).2.1 (by decide),
    (C7_nsec_range (-5)).2.2 (by decide)⟩

/-- C3 counterexample: the ticker counter is a 32-bit int, so allocation
number 2 to the 31st wraps to the negative value -2147483648 (not positive,
not an increase over its predecessor), and allocation number 4294967295
hands out the reserved sentinel -1 itself. -/
theorem C3_counterexample :
    allocatedTicker 2147483648 = -2147483648 ∧
    ¬ 0 < allocatedTicker 2147483648 ∧
    allocatedTicker 4294967295 = -1 := by
  unfold allocatedTicker
  rw [tickerAfter_eq, tickerAfter_eq]
  unfold wrap32
  norm_num

/-- C3 (amended): on a single connection the tickers handed out by the first
2^31 - 1 allocations (by Use, Prepare, ExecuteAsync or BatchInsertAsync,
which all share the same pre-incrementing counter) are exactly 1, 2, 3, ...:
positive, strictly increasing, pairwise distinct, and never the reserved
value -1.  Beyond that the 32-bit counter wraps, as the counterexample
shows. -/
theorem C3_ticker_allocation (m n : Nat) (h1 : 1 ≤ n)
    (h2 : n < 2147483648) :
    allocatedTicker n = (n : Int) ∧ 0 < allocatedTicker n ∧
    allocatedTicker n ≠ -1 ∧
    (1 ≤ m → m < n → allocatedTicker m < allocatedTicker n) := by
  unfold allocatedTicker
  rw [tickerAfter_eq, tickerAfter_eq]
  unfold wrap32
  omega

/-- C3 witness: the very first allocation hands out ticker 1, and the second
allocation strictly exceeds it. -/
theorem C3_witness :
    (allocatedTicker 1 = 1 ∧ 0 < allocatedTicker 1 ∧
      allocatedTicker 1 ≠ -1) ∧
    (allocatedTicker 2 = 2 ∧ 0 < allocatedTicker 2 ∧
      allocatedTicker 2 ≠ -1 ∧ allocatedTicker 1 < allocatedTicker 2) :=
  have h1 := C3_ticker_allocation 0 1 (by decide) (by decide)
  have h2 := C3_ticker_allocation 1 2 (by decide) (by decide)
  ⟨⟨h1.1, h1.2.1, h1.2.2.1⟩,
    ⟨h2.1, h2.2.1, h2.2.2.1, h2.2.2.2 (by decide) (by decide)⟩⟩

/-- C1 (code bug): FutureImpl::Get_ compares the raw system_clock tick count
(now - start).count() - nanoseconds on the reference platform - against the
timeout value that line 34 documents as seconds.  With timeout 0.01 and no
outcome stored for the ticker nor for -1, the very first poll (the loop
wakes from its 1ms wait with about 1000000 elapsed ticks) already satisfies
1000000 >= 0.01, so the call throws Timeout after about one millisecond,
not after the promised ten: 1000000 ticks is far below the 10000000 ticks
of 10ms. -/
theorem C1_timeout_code_bug :
    FutureImpl.GetV (fun _ => none) 5 (1 / 100)
      (fun i => 1000000 * ((i : Int) + 1)) 1 = GetResult.timeout ∧
    1000000 * ((0 : Int) + 1) < 10000000 := by
  constructor
  · simp only [FutureImpl.GetV, GetLoop, getCheck]
    norm_num
  · norm_num

/-- C2 counterexample: the claim quantifies over every Get issued after the
-1 entry appears, but a Get whose own ticker already holds a stored outcome
returns that outcome instead of raising the connection error, because Get_
checks the future's own ticker before the reserved -1: on a table holding a
result for ticker 7 and the fatal error under -1, Get_ for ticker 7
returns the result and does not throw the stored message. -/
theorem C2_counterexample :
    storeAfterError (-1) = some (.scalar (.vstr "closed")) ∧
    FutureImpl.GetV storeAfterError 7 0 (fun _ => 0) 1 =
      .value (.result (some [[.vint64 1]])) ∧
    FutureImpl.GetV storeAfterError 7 0 (fun _ => 0) 1 ≠
      .connError "closed" := by
  refine ⟨rfl, rfl, ?_⟩
  intro h
  exact GetResult.noConfusion h

/-- C2 (amended): once a string outcome is stored under the reserved ticker
-1, every Future.Get whose own ticker has no stored outcome - whether it was
already blocked or is issued afterwards on that connection - raises a
ConnectionError carrying exactly that stored message (one throw per call);
a Get whose own ticker does hold an outcome returns it, since the own-ticker
check precedes the -1 check. -/
theorem C2_terminal_conn_error (store : Store) (ticker : Int) (timeout : ℚ)
    (elapsedNs : Nat → Int) (fuel : Nat) (msg : String)
    (hown : store ticker = none)
    (herr : store (-1) = some (.scalar (.vstr msg))) :
    FutureImpl.GetV store ticker timeout elapsedNs (fuel + 1) =
      .connError msg :=
  getV_of_connError store ticker timeout elapsedNs fuel msg hown herr

/-- C2 witness: a connection whose table only holds the -1 error entry. -/
theorem C2_witness :
    FutureImpl.GetV
      (fun t => if t = -1 then some (.scalar (.vstr "closed")) else none)
      5 0 (fun _ => 0) 1 = .connError "closed" :=
  C2_terminal_conn_error _ 5 0 (fun _ => 0) 0 "closed" rfl rfl

/-- C8: a frame of length 1 whose payload byte is H (72) makes the read loop
queue exactly one zero-length frame (the heartbeat pong), resume with the
next length prefix, and leave the pending table untouched, so no Future can
observe the exchange - for every parser and every reactor state. -/
theorem C8_heartbeat_pong (decode : List Nat → Option (Int × Value))
    (st : ReactorState) :
    handleBody decode st 1 [72] =
      ({ st with sentPayloads := st.sentPayloads ++ [[]] }, ReadCont.head) ∧
    (handleBody decode st 1 [72]).1.store = st.store :=
  ⟨rfl, rfl⟩

/-- C8 witness: a heartbeat handled on a fresh reactor state with a parser
that accepts nothing. -/
theorem C8_witness :
    handleBody (fun _ => none) ⟨fun _ => none, []⟩ 1 [72] =
      (⟨fun _ => none, [[]]⟩, ReadCont.head) ∧
    (handleBody (fun _ => none) ⟨fun _ => none, []⟩ 1 [72]).1.store =
      (fun _ => none : Store) :=
  C8_heartbeat_pong (fun _ => none) ⟨fun _ => none, []⟩

/-- C9: when the outcome stored for the ticker is a plain scalar other than
a string (strings are server errors), FutureImpl::Get returns the
default-constructed ResultSet, which exposes zero rows; only
ResultSet-typed outcomes can produce rows. -/
theorem C9_scalar_yields_empty (store : Store) (ticker : Int)
    (s : ValueScalar) (timeout : ℚ) (elapsedNs : Nat → Int) (fuel : Nat)
    (hres : store ticker = some (.scalar s))
    (hnstr : ∀ m, s ≠ .vstr m) :
    FutureImpl.Get store ticker timeout elapsedNs (fuel + 1) = .ok none ∧
    resultRows none = 0 := by
  refine ⟨?_, rfl⟩
  have hv : FutureImpl.GetV store ticker timeout elapsedNs (fuel + 1) =
      .value (.scalar s) := by
    simp only [FutureImpl.GetV, GetLoop, getCheck, hres]
    cases s with
    | vstr m => exact absurd rfl (hnstr m)
    | vint64 n => rfl
    | vuint64 n => rfl
    | vint32 n => rfl
    | vuint32 n => rfl
    | vbool b => rfl
    | vfloat q => rfl
    | vdouble q => rfl
    | vnull => rfl
    | vtime ns => rfl
  rw [FutureImpl.Get, hv]

/-- C9 witness: an integer scalar outcome stored for ticker 3. -/
theorem C9_witness :
    FutureImpl.Get
      (fun t => if t = 3 then some (.scalar (.vint64 42)) else none)
      3 0 (fun _ => 0) 1 = .ok none ∧
    resultRows none = 0 :=
  C9_scalar_yields_empty _ 3 (.vint64 42) 0 (fun _ => 0) 0 rfl
    (fun _ h => ValueScalar.noConfusion h)

/-- C4 counterexample: with empty args, the args field of the run request is
the default-constructed json - null - not an empty array: ExecuteAsync never
touches jargs when args is empty, and a default nlohmann json is null. -/
theorem C4_counterexample :
    ExecuteAsync (fun _ => none) ⟨0, [], []⟩ "SELECT 1" [] =
      Except.ok (1, ⟨1, [],
        [⟨1, "run", Json.jstr "SELECT 1", some Json.null⟩]⟩) ∧
    Json.null ≠ Json.arr [] :=
  ⟨rfl, fun h => Json.noConfusion h⟩

/-- C4 (amended): ExecuteAsync with non-empty args first resolves a prepared
statement id (a blocking prepare round trip on a cache miss, or a cache
hit; the id is narrowed to int) and, when the resolved id is nonnegative,
sends one run request whose statement field is that id and whose args field
is the marshalled args (when the narrowed id is negative, the statement
field falls back to the raw SQL text); with empty args it allocates a
ticker and sends one run request carrying the raw SQL text and a null args
field (the untouched default json, not an empty array), with no prepare
round trip; in each case the returned Future is bound to the freshly
allocated ticker. -/
theorem C4_executeAsync_requests (env : Store) (st : ConnState)
    (sql : String) (args : List ValueScalar) (id : Int) :
    (ExecuteAsync env st sql [] = Except.ok (nextTicker st.counter,
      { counter := nextTicker st.counter, prepared := st.prepared,
        sent := st.sent ++
          [⟨nextTicker st.counter, "run", Json.jstr sql,
            some Json.null⟩] })) ∧
    (args ≠ [] → st.prepared.lookup sql = some id → 0 ≤ id →
      ExecuteAsync env st sql args = Except.ok (nextTicker st.counter,
      { counter := nextTicker st.counter, prepared := st.prepared,
        sent := st.sent ++
          [⟨nextTicker st.counter, "run", Json.jint id,
            some (ConvertArgs args Json.null)⟩] })) ∧
    (args ≠ [] → st.prepared.lookup sql = none →
      env (nextTicker st.counter) = some (.scalar (.vint64 id)) →
      0 ≤ wrap32 id →
      ExecuteAsync env st sql args =
        Except.ok (nextTicker (nextTicker st.counter),
      { counter := nextTicker (nextTicker st.counter),
        prepared := st.prepared ++ [(sql, wrap32 id)],
        sent := st.sent ++
          [⟨nextTicker st.counter, "prepare", Json.jstr sql, none⟩,
           ⟨nextTicker (nextTicker st.counter), "run",
            Json.jint (wrap32 id),
            some (ConvertArgs args Json.null)⟩] })) ∧
    (args ≠ [] → st.prepared.lookup sql = none →
      env (nextTicker st.counter) = some (.scalar (.vint64 id)) →
      wrap32 id < 0 →
      ExecuteAsync env st sql args =
        Except.ok (nextTicker (nextTicker st.counter),
      { counter := nextTicker (nextTicker st.counter),
        prepared := st.prepared ++ [(sql, wrap32 id)],
        sent := st.sent ++
          [⟨nextTicker st.counter, "prepare", Json.jstr sql, none⟩,
           ⟨nextTicker (nextTicker st.counter), "run", Json.jstr sql,
            some (ConvertArgs args Json.null)⟩] })) := by
  refine ⟨rfl, ?_, ?_, ?_⟩
  · intro hne hhit hpos
    rw [ExecuteAsync, if_neg (by simpa using hne),
      Prepare_cache_hit env st sql id hhit]
    simp only [if_pos hpos]
  · intro hne hmiss henv hpos
    rw [ExecuteAsync, if_neg (by simpa using hne),
      Prepare_cache_miss env st sql id hmiss henv]
    simp only [if_pos hpos, List.append_assoc, List.cons_append,
      List.nil_append]
  · intro hne hmiss henv hneg
    rw [ExecuteAsync, if_neg (by simpa using hne),
      Prepare_cache_miss env st sql id hmiss henv]
    simp only [if_neg (not_le.mpr hneg), List.append_assoc,
      List.cons_append, List.nil_append]

/-- C4 witness: the four request shapes at concrete inputs - empty args,
non-empty args against a warm cache, non-empty args against a cold cache
with the server answering id 4 on the prepare ticker, and non-empty args
with the server answering 2147483648, which the int narrowing wraps
negative so the run request falls back to the raw SQL text. -/
theorem C4_witness :
    (ExecuteAsync (fun t => if t = 1 then some (.scalar (.vint64 4)) else none)
      ⟨0, [], []⟩ "S" [] = Except.ok (1, ⟨1, [],
        [⟨1, "run", Json.jstr "S", some Json.null⟩]⟩)) ∧
    (ExecuteAsync (fun t => if t = 1 then some (.scalar (.vint64 4)) else none)
      ⟨0, [("S", 4)], []⟩ "S" [.vint64 9] = Except.ok (1, ⟨1, [("S", 4)],
        [⟨1, "run", Json.jint 4, some (Json.arr [Json.jint 9])⟩]⟩)) ∧
    (ExecuteAsync (fun t => if t = 1 then some (.scalar (.vint64 4)) else none)
      ⟨0, [], []⟩ "S" [.vint64 9] = Except.ok (2, ⟨2, [("S", 4)],
        [⟨1, "prepare", Json.jstr "S", none⟩,
         ⟨2, "run", Json.jint 4, some (Json.arr [Json.jint 9])⟩]⟩)) ∧
    (ExecuteAsync
      (fun t => if t = 1 then some (.scalar (.vint64 2147483648)) else none)
      ⟨0, [], []⟩ "S" [.vint64 9] =
        Except.ok (2, ⟨2, [("S", -2147483648)],
        [⟨1, "prepare", Json.jstr "S", none⟩,
         ⟨2, "run", Json.jstr "S", some (Json.arr [Json.jint 9])⟩]⟩)) :=
  ⟨(C4_executeAsync_requests (fun t => if t = 1 then some (.scalar (.vint64 4)) else none)
      ⟨0, [], []⟩ "S" [] 4).1,
   (C4_executeAsync_requests (fun t => if t = 1 then some (.scalar (.vint64 4)) else none)
      ⟨0, [("S", 4)], []⟩ "S" [.vint64 9] 4).2.1
      (List.cons_ne_nil _ _) rfl (by decide),
   (C4_executeAsync_requests (fun t => if t = 1 then some (.scalar (.vint64 4)) else none)
      ⟨0, [], []⟩ "S" [.vint64 9] 4).2.2.1
      (List.cons_ne_nil _ _) rfl rfl (by decide),
   (C4_executeAsync_requests
      (fun t => if t = 1 then some (.scalar (.vint64 2147483648)) else none)
      ⟨0, [], []⟩ "S" [.vint64 9] 2147483648).2.2.2
      (List.cons_ne_nil _ _) rfl rfl (by decide)⟩

/-- C5: calling Prepare N+1 times with the same SQL text against a cold
cache triggers exactly one prepare message (on the first call), caches the
returned id (the server's int64 narrowed to int), and returns that same id
from every call; and every cache-hit call leaves the connection state
completely unchanged and is independent of the response environment, so it
performs no Send and no network wait. -/
theorem C5_prepare_idempotent (env : Store) (st : ConnState) (sql : String)
    (id : Int) (N : Nat)
    (hmiss : st.prepared.lookup sql = none)
    (henv : env (nextTicker st.counter) = some (.scalar (.vint64 id))) :
    (PrepareN env sql st (N + 1) =
      Except.ok (List.replicate (N + 1) (wrap32 id),
      { counter := nextTicker st.counter,
        prepared := st.prepared ++ [(sql, wrap32 id)],
        sent := st.sent ++
          [⟨nextTicker st.counter, "prepare", Json.jstr sql, none⟩] })) ∧
    (∀ st2 : ConnState, st2.prepared.lookup sql = some (wrap32 id) →
      ∀ env2 : Store,
        Prepare env2 st2 sql = Except.ok (wrap32 id, st2)) := by
  refine ⟨?_, fun st2 h env2 => Prepare_cache_hit env2 st2 sql (wrap32 id) h⟩
  have hF : (st.prepared ++ [(sql, wrap32 id)]).lookup sql =
      some (wrap32 id) := by
    rw [lookup_append _ _ sql hmiss]
    simp [List.lookup]
  simp only [PrepareN, Prepare_cache_miss env st sql id hmiss henv,
    PrepareN_cache_hit env sql
      { counter := nextTicker st.counter,
        prepared := st.prepared ++ [(sql, wrap32 id)],
        sent := st.sent ++
          [⟨nextTicker st.counter, "prepare", Json.jstr sql, none⟩] }
      (wrap32 id) N hF,
    List.replicate_succ]

/-- C5 witness: two Prepare calls with the same text against a cold cache,
the environment answering id 7 on the prepare ticker, followed by a
cache-hit call on the resulting state. -/
theorem C5_witness :
    (PrepareN (fun t => if t = 1 then some (.scalar (.vint64 7)) else none)
      "a" ⟨0, [], []⟩ 2 = Except.ok ([7, 7], ⟨1, [("a", 7)],
        [⟨1, "prepare", Json.jstr "a", none⟩]⟩)) ∧
    (Prepare (fun t => if t = 1 then some (.scalar (.vint64 7)) else none)
      ⟨1, [("a", 7)], []⟩ "a" = Except.ok (7, ⟨1, [("a", 7)], []⟩)) :=
  have h := C5_prepare_idempotent
    (fun t => if t = 1 then some (.scalar (.vint64 7)) else none)
    ⟨0, [], []⟩ "a" 7 1 rfl rfl
  ⟨h.1, h.2 ⟨1, [("a", 7)], []⟩ rfl _⟩

/-- C10 counterexample: after a refused TCP connect, boost leaves the
auto-opened socket open, so Connect with no database name returns a
Connection whose IsConnected() is true, not false; and when a database name
is supplied, the ConnectionError thrown by the Get inside Use propagates
out of Connect itself, so Connect does not return at all. -/
theorem C10_counterexample :
    ConnectModel .connectRefused "" "refused" =
      .returned .openedNotConnected (errStore "refused") ∧
    IsConnected .openedNotConnected = true ∧
    ConnectModel .connectRefused "db" "refused" = .raises "refused" :=
  ⟨rfl, rfl, rfl⟩

/-- C10 (amended): the Connection constructor never propagates a TCP
connect failure (the body is wrapped in a catch that only logs), and
Connect with no database name still returns a Connection handle whose
pending table carries the read-failure message under ticker -1, so the
failure surfaces to callers as a ConnectionError raised from Future.Get;
IsConnected() is false when the failure preceded opening the socket
(invalid address) but true after a refused connect, and when a database
name was supplied the ConnectionError already propagates out of Connect
itself, from the Get inside Use. -/
theorem C10_connect_failure_path (o : TcpOutcome) (msg db : String)
    (ticker : Int) (timeout : ℚ) (elapsedNs : Nat → Int) (fuel : Nat)
    (ho : o ≠ .success) (ht : ticker ≠ -1) :
    (ConnectModel o "" msg = .returned (ctorSocket o) (errStore msg)) ∧
    IsConnected (ctorSocket .invalidAddress) = false ∧
    IsConnected (ctorSocket .connectRefused) = true ∧
    (db.length ≠ 0 → ConnectModel o db msg = .raises msg) ∧
    (FutureImpl.GetV (errStore msg) ticker timeout elapsedNs (fuel + 1) =
      .connError msg) := by
  have hstore : errStore msg ticker = none := by
    simp only [errStore, Notify, if_neg ht]
  refine ⟨?_, rfl, rfl, ?_, ?_⟩
  · cases o with
    | success => exact absurd rfl ho
    | invalidAddress => rfl
    | connectRefused => rfl
  · intro hdb
    have hlen : (db.length != 0) = true := by
      simpa [bne_iff_ne] using hdb
    cases o with
    | success => exact absurd rfl ho
    | invalidAddress => simp only [ConnectModel, hlen, if_true]
    | connectRefused => simp only [ConnectModel, hlen, if_true]
  · exact getV_of_connError _ ticker timeout elapsedNs fuel msg hstore rfl

/-- C10 witness: a refused connect with read error message boom, checked
with database names empty and d, and a pending Future on ticker 5. -/
theorem C10_witness :
    (ConnectModel .connectRefused "" "boom" =
      .returned (ctorSocket .connectRefused) (errStore "boom")) ∧
    IsConnected (ctorSocket .invalidAddress) = false ∧
    IsConnected (ctorSocket .connectRefused) = true ∧
    ConnectModel .connectRefused "d" "boom" = .raises "boom" ∧
    FutureImpl.GetV (errStore "boom") 5 0 (fun _ => 0) 1 =
      .connError "boom" :=
  have h := C10_connect_failure_path .connectRefused "boom" "d" 5 0
    (fun _ => 0) 0 (fun hc => TcpOutcome.noConfusion hc) (by decide)
  ⟨h.1, h.2.1, h.2.2.1, h.2.2.2.1 (by decide), h.2.2.2.2⟩

end Opentick
